import Mathlib

/-!
Shallow embedding of the background job scheduler
(`rasax/community/scheduler.py`) and of the Git HTTP blueprint
(`rasax/community/api/blueprints/git.py`) of the Rasa X community
repository, together with proofs about the claims on kwarg merging,
job cancellation, the debounced file-dumping job, and the HTTP status
codes returned for Git errors.
-/

namespace RasaX

/-- Runtime Python values that can appear as scheduler job `kwargs`.
Container elements are strings, which covers every value the scheduler
is fed (sets of file paths, lists of categories, string-to-string
dicts) while keeping the runtime-type dispatch of the source faithful. -/
inductive PyVal where
  | none
  | bool (b : Bool)
  | int (n : Int)
  | str (s : String)
  | set (xs : List String)
  | list (xs : List String)
  | dict (kvs : List (String × String))
  deriving Repr, DecidableEq

/-- The Python runtime type tags relevant to the merge logic, as
compared by `type(current) != type(updated)` in the source. -/
inductive PyType where
  | noneType
  | boolType
  | intType
  | strType
  | setType
  | listType
  | dictType
  deriving Repr, DecidableEq

/-- `type(v)` for the embedded values. In Python `type(True)` is `bool`
and `type(1)` is `int`, which the embedding keeps distinct. -/
def pyType : PyVal → PyType
  | .none => .noneType
  | .bool _ => .boolType
  | .int _ => .intType
  | .str _ => .strType
  | .set _ => .setType
  | .list _ => .listType
  | .dict _ => .dictType

/-- Python truthiness of the embedded values: `None`, `False`, `0`,
empty strings and empty containers are falsy, everything else truthy. -/
def truthy : PyVal → Bool
  | .none => false
  | .bool b => b
  | .int n => n != 0
  | .str s => s != ""
  | .set xs => !xs.isEmpty
  | .list xs => !xs.isEmpty
  | .dict kvs => !kvs.isEmpty

/-- Python runtime errors the merge code can raise. -/
inductive PyError where
  | typeError
  deriving Repr, DecidableEq

instance {ε α : Type} [DecidableEq ε] [DecidableEq α] :
    DecidableEq (Except ε α) := fun x y =>
  match x, y with
  | .error a, .error b =>
    if h : a = b then .isTrue (by rw [h])
    else .isFalse (by intro hh; injection hh; contradiction)
  | .error _, .ok _ => .isFalse (by intro hh; cases hh)
  | .ok _, .error _ => .isFalse (by intro hh; cases hh)
  | .ok a, .ok b =>
    if h : a = b then .isTrue (by rw [h])
    else .isFalse (by intro hh; injection hh; contradiction)

/-- Union of two Python sets, modelled on deduplicated element lists:
the left operand's elements followed by the new elements of the right. -/
def setUnion (xs ys : List String) : List String :=
  xs ++ ys.filter (fun y => !xs.contains y)

/-- Value stored under key `k` in an association-list dict. -/
def lookupStr (kvs : List (String × String)) (k : String) : Option String :=
  (kvs.find? (fun kv => kv.1 == k)).map (fun kv => kv.2)

/-- Python's `{**c, **u}`: keys keep `c`'s insertion order, values from
`u` win on common keys, and `u`'s new keys are appended in order. -/
def dictMerge (c u : List (String × String)) : List (String × String) :=
  c.map (fun kv => (kv.1, (lookupStr u kv.1).getD kv.2))
    ++ u.filter (fun kv => (lookupStr c kv.1).isNone)

/-- `_merge_single_job_kwarg` from `scheduler.py`: `None` on either side
yields the other side; a set current is united (`|`), a list current
concatenated (`+`), a dict current shallow-merged (`{**current,
**updated}`), a bool current overwritten; every other current type
falls through and yields `None`.  The Python operators `|`, `+` and
`**` raise `TypeError` when the updated value has an incompatible
type, which the embedding returns as `Except.error`. -/
def merge_single_job_kwarg : PyVal → PyVal → Except PyError PyVal
  | .none, updated => .ok updated
  | current, .none => .ok current
  | .set xs, .set ys => .ok (.set (setUnion xs ys))
  | .set _, _ => .error .typeError
  | .list xs, .list ys => .ok (.list (xs ++ ys))
  | .list _, _ => .error .typeError
  | .dict c, .dict u => .ok (.dict (dictMerge c u))
  | .dict _, _ => .error .typeError
  | .bool _, updated => .ok updated
  | _, _ => .ok .none

/-- Kwargs dicts are association lists with unique keys, mirroring
Python dicts. -/
abbrev Kwargs := List (String × PyVal)

/-- `d.get(k)` for kwargs dicts: `some v` when present, `none` absent. -/
def kwGet (kvs : Kwargs) (k : String) : Option PyVal :=
  (kvs.find? (fun kv => kv.1 == k)).map (fun kv => kv.2)

/-- `d[k] = v` for kwargs dicts: overwrite in place when the key is
present, append otherwise (Python dict assignment order semantics). -/
def kwSet (kvs : Kwargs) (k : String) (v : PyVal) : Kwargs :=
  if kvs.any (fun kv => kv.1 == k) then
    kvs.map (fun kv => if kv.1 == k then (k, v) else kv)
  else
    kvs ++ [(k, v)]

/-- `d.pop(k, default)`'s removal effect on a unique-key dict. -/
def kwRemove (kvs : Kwargs) (k : String) : Kwargs :=
  kvs.filter (fun kv => kv.1 != k)

/-- Loop body of `_get_merged_job_kwargs`, iterating over the new
kwargs in order.  `merged` is the accumulator dict, `warned` the keys
for which `logger.warning` has fired.  For each key the current value
is read with `.get` (absent behaves as `None`); when current and
updated are both truthy and their runtime types differ, a warning is
recorded and the key is skipped; otherwise the per-key merge runs and
its `TypeError`, if any, aborts the whole call. -/
def mergeKwargsLoop : Kwargs → Kwargs → List String →
    Except PyError (Kwargs × List String)
  | merged, [], warned => .ok (merged, warned)
  | merged, (key, updated) :: rest, warned =>
    let current := (kwGet merged key).getD .none
    if truthy current && truthy updated && pyType current != pyType updated then
      mergeKwargsLoop merged rest (warned ++ [key])
    else
      match merge_single_job_kwarg current updated with
      | .error e => .error e
      | .ok v => mergeKwargsLoop (kwSet merged key v) rest warned

/-- `_get_merged_job_kwargs` from `scheduler.py`: starts from the
existing job's kwargs (`existing_job.kwargs or {}` — an empty dict
stays empty) and folds the new kwargs into it.  Returns the merged
dict together with the list of keys that triggered the type-mismatch
warning. -/
def get_merged_job_kwargs (existingKwargs newKwargs : Kwargs) :
    Except PyError (Kwargs × List String) :=
  mergeKwargsLoop existingKwargs newKwargs []

/-- Modelled from the spec: the id of the debounced background
file-dumping job (`background_dump_service.BACKGROUND_DUMPING_JOB_ID`;
`background_dump_service.py` is not part of the sources).  The claims
only compare job ids against this constant, so its concrete text is
irrelevant. -/
def BACKGROUND_DUMPING_JOB_ID : String := "background_dumping_job"

/-- Modelled from the spec: the fixed maximum dumping delay in seconds
(`config.MAX_DUMPING_DELAY_IN_SECONDS`; `config.py` is not part of the
sources).  The claims mention the constant symbolically only. -/
def MAX_DUMPING_DELAY_IN_SECONDS : Nat := 300

/-- A scheduled job as the scheduler observes it: its id, the time of
its next run (seconds, standing in for `datetime`), and the kwargs the
job function will be called with. -/
structure Job where
  id : String
  next_run_time : Nat
  kwargs : Kwargs
  deriving Repr, DecidableEq

/-- `_modify_job` from `scheduler.py`: pops `run_immediately` from the
modification dict (default `False`); when it is truthy the job's next
run time is set to `datetime.now()` (the `now` argument); in every
case the remaining modification kwargs are merged into the job's
kwargs via `_get_merged_job_kwargs`, whose `TypeError` propagates. -/
def modify_job_state (background_job : Job) (job_modification : Kwargs)
    (now : Nat) : Except PyError Job :=
  let run_immediately := (kwGet job_modification "run_immediately").getD (.bool false)
  let remaining := kwRemove job_modification "run_immediately"
  let nextRun := if truthy run_immediately then now else background_job.next_run_time
  match get_merged_job_kwargs background_job.kwargs remaining with
  | .error e => .error e
  | .ok merged =>
      .ok { background_job with next_run_time := nextRun, kwargs := merged.1 }

/-- `_add_job_to_dump_files` from `scheduler.py`: a one-shot job with
the background dumping id, scheduled to run at `datetime.now()` plus
`MAX_DUMPING_DELAY_IN_SECONDS`, whose kwargs are the remaining job
information of the queue message. -/
def add_job_to_dump_files (job_information : Kwargs) (now : Nat) : Job :=
  { id := BACKGROUND_DUMPING_JOB_ID
    next_run_time := now + MAX_DUMPING_DELAY_IN_SECONDS
    kwargs := job_information }

/-- A job-control message on the scheduler queue, after reading out the
`job_id` entry that `modify_job`/`cancel_job` always set.  `payload`
is the rest of the dict: possibly a `cancel` flag, possibly
`run_immediately`, and the kwargs to merge. -/
structure QueueItem where
  job_id : String
  payload : Kwargs
  deriving Repr, DecidableEq

/-- The scheduler's job table, keyed by unique job ids. -/
abbrev JobTable := List Job

/-- `scheduler.get_job(job_id)`. -/
def getJob (jobs : JobTable) (job_id : String) : Option Job :=
  jobs.find? (fun j => j.id == job_id)

/-- `_handle_next_queue_item` from `scheduler.py`: pop the `cancel`
flag (default `False`); when it is truthy and a job with this id
exists, remove the job and stop.  Otherwise, an existing job is
modified via `_modify_job`; with no existing job, a message for the
background dumping id creates the dump job — even a cancel message
falls through to this branch — and any other id only logs a warning. -/
def handle_next_queue_item (jobs : JobTable) (item : QueueItem) (now : Nat) :
    Except PyError JobTable :=
  let existing := getJob jobs item.job_id
  let should_cancel := truthy ((kwGet item.payload "cancel").getD (.bool false))
  let job_information := kwRemove item.payload "cancel"
  if should_cancel && existing.isSome then
    .ok (jobs.filter (fun j => j.id != item.job_id))
  else
    match existing with
    | some job =>
        (modify_job_state job job_information now).map
          (fun j => jobs.map (fun x => if x.id == item.job_id then j else x))
    | Option.none =>
        if item.job_id == BACKGROUND_DUMPING_JOB_ID then
          .ok (jobs ++ [add_job_to_dump_files job_information now])
        else
          .ok jobs

/-- `modify_job` from `scheduler.py`: the queue message it enqueues for
a kwargs modification of the given job. -/
def modify_job (job_id : String) (kwargs : Kwargs) : QueueItem :=
  { job_id := job_id, payload := kwargs }

/-- `run_job_immediately` from `scheduler.py`: delegates to
`modify_job` with `run_immediately=True` added to the kwargs. -/
def run_job_immediately (job_id : String) (kwargs : Kwargs) : QueueItem :=
  modify_job job_id (("run_immediately", PyVal.bool true) :: kwargs)

/-- `cancel_job` from `scheduler.py`: enqueues `{job_id, cancel: True}`. -/
def cancel_job (job_id : String) : QueueItem :=
  { job_id := job_id, payload := [("cancel", PyVal.bool true)] }

/-- The exception classes that the Git blueprint handlers in
`api/blueprints/git.py` catch, as declared in
`services/integrated_version_control/exceptions.py` and in the utils
module. -/
inductive GitExc where
  | rasaLicenseException
  | projectLayoutError
  | credentialsError
  | gitHTTPSCredentialsError
  | valueError
  | gitCommitError
  | gitConcurrentOperationException
  deriving Repr, DecidableEq

/-- Python `except C` matching: an exception instance of class `e` is
caught by a clause for class `c` when `e` is `c` or a subclass.  The
only subclass relation among these classes is
`GitHTTPSCredentialsError < CredentialsError` (`exceptions.py`). -/
def caughtBy : GitExc → GitExc → Bool
  | .gitHTTPSCredentialsError, .credentialsError => true
  | e, c => e == c

/-- Outcome of running a blueprint handler: an HTTP response with a
status code, the error code passed to `common_utils.error` (when any),
and the response body payload (when any); or an exception no `except`
clause of the handler catches, which propagates out of the handler. -/
inductive HandlerResult where
  | response (status : Nat) (errorCode : Option String) (body : Option String)
  | unhandled (e : GitExc)
  deriving Repr, DecidableEq

/-- `add_repository` (POST `/git_repositories`) from `git.py`, as a
function of the outcome of the service calls in its `try` block: 201
with the saved repository on success; then, in clause order,
`RasaLicenseException` gives 409, `ProjectLayoutError` gives 400, and
`CredentialsError` — which also catches its subclass
`GitHTTPSCredentialsError` — gives 422. -/
def add_repository : Except GitExc String → HandlerResult
  | .ok saved => .response 201 Option.none (some saved)
  | .error e =>
    if caughtBy e .rasaLicenseException then
      .response 409 (some "RasaEnterpriseRequired") Option.none
    else if caughtBy e .projectLayoutError then
      .response 400 (some "RepositoryCreationFailed") Option.none
    else if caughtBy e .credentialsError then
      .response 422 (some "RepositoryCreationFailed") Option.none
    else
      .unhandled e

/-- `update_repository` (PUT `/git_repositories/{id}`) from `git.py`:
200 with the updated repository on success; then, in clause order,
`RasaLicenseException` gives 409, `GitHTTPSCredentialsError` gives
403, `ProjectLayoutError` gives 400 and `ValueError` gives 404.  There
is no clause for the plain `CredentialsError`. -/
def update_repository : Except GitExc String → HandlerResult
  | .ok updated => .response 200 Option.none (some updated)
  | .error e =>
    if caughtBy e .rasaLicenseException then
      .response 409 (some "RasaEnterpriseRequired") Option.none
    else if caughtBy e .gitHTTPSCredentialsError then
      .response 403 (some "IncorrectCredentials") Option.none
    else if caughtBy e .projectLayoutError then
      .response 400 (some "InvalidProjectLayout") Option.none
    else if caughtBy e .valueError then
      .response 404 (some "RepositoryNotFound") Option.none
    else
      .unhandled e

/-- `checkout_branch` (PUT `.../branches/{branch}`) from `git.py`, as a
function of the outcomes of the two service calls inside its `try`
block: `git_service.checkout_branch` runs first, and only when it
succeeds is `git_service.synchronize_project` awaited; only after both
complete is the 204 empty-body response produced.  A
`ProjectLayoutError` raised by either call gives 400
`InvalidProjectLayout`, a `ValueError` gives 404 `BranchNotFound`. -/
def checkout_branch (checkoutResult syncResult : Except GitExc Unit) :
    HandlerResult :=
  let onError : GitExc → HandlerResult := fun e =>
    if caughtBy e .projectLayoutError then
      .response 400 (some "InvalidProjectLayout") Option.none
    else if caughtBy e .valueError then
      .response 404 (some "BranchNotFound") Option.none
    else
      .unhandled e
  match checkoutResult with
  | .error e => onError e
  | .ok _ =>
    match syncResult with
    | .error e => onError e
    | .ok _ => .response 204 Option.none Option.none

/-- `create_commit` (POST `.../branches/{branch}/commits`) from
`git.py`: 201 with the commit info on success; then, in clause order,
`ValueError` gives 404, `GitCommitError` gives 403 `BranchIsProtected`
and `GitConcurrentOperationException` gives 409
`AnotherIVCOperationInProgress`. -/
def create_commit : Except GitExc String → HandlerResult
  | .ok commit => .response 201 Option.none (some commit)
  | .error e =>
    if caughtBy e .valueError then
      .response 404 (some "RepositoryNotFound") Option.none
    else if caughtBy e .gitCommitError then
      .response 403 (some "BranchIsProtected") Option.none
    else if caughtBy e .gitConcurrentOperationException then
      .response 409 (some "AnotherIVCOperationInProgress") Option.none
    else
      .unhandled e

/-- The HTTP status of a handler outcome, when the handler produced a
response at all. -/
def statusOf : HandlerResult → Option Nat
  | .response s _ _ => some s
  | .unhandled _ => Option.none

/-- C1: re-scheduling an existing job merges each kwarg per value type
instead of replacing it: a set-valued current value is united with the
update, a list-valued one concatenated, a dict-valued one
shallow-merged with update keys winning, and a bool-valued one
overwritten; in particular merging `{files: {a}}` with `{files: {b}}`
through the queue-item handler yields `{files: {a, b}}`. -/
theorem rescheduling_merges_kwargs_per_type (kw : Kwargs) (k : String) :
    (∀ xs ys, kwGet kw k = some (PyVal.set xs) →
      get_merged_job_kwargs kw [(k, PyVal.set ys)]
        = .ok (kwSet kw k (PyVal.set (setUnion xs ys)), []))
    ∧ (∀ xs ys, kwGet kw k = some (PyVal.list xs) →
      get_merged_job_kwargs kw [(k, PyVal.list ys)]
        = .ok (kwSet kw k (PyVal.list (xs ++ ys)), []))
    ∧ (∀ c u, kwGet kw k = some (PyVal.dict c) →
      get_merged_job_kwargs kw [(k, PyVal.dict u)]
        = .ok (kwSet kw k (PyVal.dict (dictMerge c u)), []))
    ∧ (∀ b v, kwGet kw k = some (PyVal.bool b) →
      get_merged_job_kwargs kw [(k, PyVal.bool v)]
        = .ok (kwSet kw k (PyVal.bool v), []))
    ∧ handle_next_queue_item
        [{ id := "job", next_run_time := 10, kwargs := [("files", PyVal.set ["a"])] }]
        (modify_job "job" [("files", PyVal.set ["b"])]) 10
      = .ok [{ id := "job", next_run_time := 10,
               kwargs := [("files", PyVal.set ["a", "b"])] }] := by
  refine ⟨?_, ?_, ?_, ?_, by decide⟩
  all_goals
    intro a b h
    simp [get_merged_job_kwargs, mergeKwargsLoop, h, pyType, truthy,
      merge_single_job_kwarg]

/-- C1 witness: the concrete set-union instance from the spec. -/
theorem rescheduling_merges_kwargs_per_type_witness :
    get_merged_job_kwargs [("files", PyVal.set ["a"])] [("files", PyVal.set ["b"])]
      = .ok ([("files", PyVal.set ["a", "b"])], []) := by
  have h := (rescheduling_merges_kwargs_per_type
    [("files", PyVal.set ["a"])] "files").1 ["a"] ["b"] (by decide)
  exact h.trans (by decide)

/-- C2 counterexample: with a current value of mismatched type that is
falsy (here the empty set) and a list-typed incoming value, the merge
does not drop the update with a warning — it raises `TypeError`. -/
theorem type_mismatch_not_always_dropped_cx :
    pyType (PyVal.set []) ≠ pyType (PyVal.list ["x"])
    ∧ get_merged_job_kwargs [("k", PyVal.set [])] [("k", PyVal.list ["x"])]
      = .error PyError.typeError := by decide

/-- C2 amended: for every kwarg key whose current and incoming values
are both truthy and of different runtime types, merging logs a warning
for that key and leaves the kwargs unchanged, without error. -/
theorem truthy_type_mismatch_drops_update (kw : Kwargs) (k : String) (u : PyVal)
    (hc : truthy ((kwGet kw k).getD PyVal.none) = true)
    (hu : truthy u = true)
    (hty : pyType ((kwGet kw k).getD PyVal.none) ≠ pyType u) :
    get_merged_job_kwargs kw [(k, u)] = .ok (kw, [k]) := by
  simp [get_merged_job_kwargs, mergeKwargsLoop, hc, hu, bne_iff_ne, hty]

/-- C2 witness: a truthy list current value with a truthy set update is
dropped with a warning on that key. -/
theorem truthy_type_mismatch_drops_update_witness :
    get_merged_job_kwargs [("k", PyVal.list ["x"])] [("k", PyVal.set ["y"])]
      = .ok ([("k", PyVal.list ["x"])], ["k"]) :=
  truthy_type_mismatch_drops_update [("k", PyVal.list ["x"])] "k"
    (PyVal.set ["y"]) (by decide) (by decide) (by decide)

/-- C3 counterexample: a cancel message for the background dumping job
id when no such job is scheduled is not a no-op — it creates a fresh
dump job. -/
theorem cancel_absent_dump_job_creates_job_cx :
    handle_next_queue_item [] (cancel_job BACKGROUND_DUMPING_JOB_ID) 0
      = .ok [{ id := BACKGROUND_DUMPING_JOB_ID,
               next_run_time := 0 + MAX_DUMPING_DELAY_IN_SECONDS, kwargs := [] }]
    ∧ handle_next_queue_item [] (cancel_job BACKGROUND_DUMPING_JOB_ID) 0
      ≠ .ok [] := by decide

/-- C3 amended: a cancellation command removes the job when one with
that id is scheduled, and is a no-op when absent — except for the
background file-dumping job id, for which a cancel message with no
scheduled job falls through and schedules a new dump job. -/
theorem cancel_behavior (jobs : JobTable) (job_id : String) (now : Nat) :
    ((getJob jobs job_id).isSome = true →
      handle_next_queue_item jobs (cancel_job job_id) now
        = .ok (jobs.filter (fun j => j.id != job_id)))
    ∧ (getJob jobs job_id = Option.none → job_id ≠ BACKGROUND_DUMPING_JOB_ID →
      handle_next_queue_item jobs (cancel_job job_id) now = .ok jobs)
    ∧ (getJob jobs job_id = Option.none → job_id = BACKGROUND_DUMPING_JOB_ID →
      handle_next_queue_item jobs (cancel_job job_id) now
        = .ok (jobs ++ [add_job_to_dump_files [] now])) := by
  refine ⟨fun h1 => ?_, fun h2 hne => ?_, fun h2 heq => ?_⟩
  · simp [handle_next_queue_item, cancel_job, h1, kwGet, kwRemove, truthy]
  · simp [handle_next_queue_item, cancel_job, h2, hne, kwGet, kwRemove, truthy]
  · subst heq
    simp [handle_next_queue_item, cancel_job, h2, kwGet, kwRemove, truthy]

/-- C3 witness: cancelling a scheduled job removes it. -/
theorem cancel_behavior_witness :
    handle_next_queue_item [{ id := "j", next_run_time := 3, kwargs := [] }]
      (cancel_job "j") 5 = .ok [] := by
  have h := (cancel_behavior [{ id := "j", next_run_time := 3, kwargs := [] }]
    "j" 5).1 (by decide)
  exact h.trans (by decide)

/-- C4 counterexample: the create endpoint answers a
`GitHTTPSCredentialsError` with 422, not 403 (its `CredentialsError`
clause also catches the subclass), and the update endpoint has no
clause at all for a plain `CredentialsError`. -/
theorem credentials_status_cx :
    statusOf (add_repository (.error GitExc.gitHTTPSCredentialsError)) ≠ some 403
    ∧ add_repository (.error GitExc.gitHTTPSCredentialsError)
      = HandlerResult.response 422 (some "RepositoryCreationFailed") Option.none
    ∧ update_repository (.error GitExc.credentialsError)
      = HandlerResult.unhandled GitExc.credentialsError := by decide

/-- C4 amended: on create, every credential rejection — HTTPS included —
is answered with 422; on update, an HTTPS credential rejection is
answered with 403 while a plain credential rejection is unhandled and
propagates out of the endpoint. -/
theorem credentials_status_by_endpoint (e : GitExc)
    (h : caughtBy e GitExc.credentialsError = true) :
    add_repository (.error e)
      = HandlerResult.response 422 (some "RepositoryCreationFailed") Option.none
    ∧ update_repository (.error GitExc.gitHTTPSCredentialsError)
      = HandlerResult.response 403 (some "IncorrectCredentials") Option.none
    ∧ update_repository (.error GitExc.credentialsError)
      = HandlerResult.unhandled GitExc.credentialsError := by
  refine ⟨?_, by decide, by decide⟩
  cases e <;> first | decide | exact absurd h (by decide)

/-- C4 witness: the HTTPS credential rejection on create gets 422. -/
theorem credentials_status_by_endpoint_witness :
    add_repository (.error GitExc.gitHTTPSCredentialsError)
      = HandlerResult.response 422 (some "RepositoryCreationFailed") Option.none :=
  (credentials_status_by_endpoint GitExc.gitHTTPSCredentialsError (by decide)).1

/-- C5: the create-commit endpoint returns 201 with the commit info on
success, 403 `BranchIsProtected` on `GitCommitError`, and 409
`AnotherIVCOperationInProgress` on `GitConcurrentOperationException`. -/
theorem create_commit_statuses :
    (∀ commit, create_commit (.ok commit)
      = HandlerResult.response 201 Option.none (some commit))
    ∧ create_commit (.error GitExc.gitCommitError)
      = HandlerResult.response 403 (some "BranchIsProtected") Option.none
    ∧ create_commit (.error GitExc.gitConcurrentOperationException)
      = HandlerResult.response 409 (some "AnotherIVCOperationInProgress")
        Option.none :=
  ⟨fun _ => rfl, by decide, by decide⟩

/-- C6: the checkout-branch endpoint produces the 204 empty response
exactly when both the checkout and the awaited full project
synchronization succeed — so the caller observes post-sync state — and
maps `ProjectLayoutError` from either stage to 400
`InvalidProjectLayout` and the missing-branch `ValueError` to 404
`BranchNotFound`. -/
theorem checkout_branch_statuses :
    (∀ co sync, checkout_branch co sync
        = HandlerResult.response 204 Option.none Option.none
      ↔ co = .ok () ∧ sync = .ok ())
    ∧ (∀ sync, checkout_branch (.error GitExc.projectLayoutError) sync
      = HandlerResult.response 400 (some "InvalidProjectLayout") Option.none)
    ∧ checkout_branch (.ok ()) (.error GitExc.projectLayoutError)
      = HandlerResult.response 400 (some "InvalidProjectLayout") Option.none
    ∧ (∀ sync, checkout_branch (.error GitExc.valueError) sync
      = HandlerResult.response 404 (some "BranchNotFound") Option.none)
    ∧ checkout_branch (.ok ()) (.error GitExc.valueError)
      = HandlerResult.response 404 (some "BranchNotFound") Option.none := by
  refine ⟨?_, fun sync => rfl, by decide, fun sync => rfl, by decide⟩
  intro co sync
  cases co with
  | error e => cases e <;> simp [checkout_branch, caughtBy]
  | ok u =>
    cases u
    cases sync with
    | error e => cases e <;> simp [checkout_branch, caughtBy]
    | ok u => cases u; simp [checkout_branch]

/-- C6 witness: both stages succeeding yields the 204 empty response. -/
theorem checkout_branch_statuses_witness :
    checkout_branch (.ok ()) (.ok ())
      = HandlerResult.response 204 Option.none Option.none :=
  (checkout_branch_statuses.1 (.ok ()) (.ok ())).mpr ⟨rfl, rfl⟩

/-- C7: a non-cancel job-control message for the background dumping job
id schedules a fresh one-shot dump job at message-processing time plus
`MAX_DUMPING_DELAY_IN_SECONDS` carrying the message's kwargs when no
dump job exists, and merges the message's kwargs into the existing
pending job — modifying it in place, creating no second job — when one
does. -/
theorem dump_job_debounce (jobs : JobTable) (payload : Kwargs) (now : Nat)
    (hnc : truthy ((kwGet payload "cancel").getD (PyVal.bool false)) = false) :
    (getJob jobs BACKGROUND_DUMPING_JOB_ID = Option.none →
      handle_next_queue_item jobs
          { job_id := BACKGROUND_DUMPING_JOB_ID, payload := payload } now
        = .ok (jobs ++ [{ id := BACKGROUND_DUMPING_JOB_ID,
                          next_run_time := now + MAX_DUMPING_DELAY_IN_SECONDS,
                          kwargs := kwRemove payload "cancel" }]))
    ∧ (∀ job, getJob jobs BACKGROUND_DUMPING_JOB_ID = some job →
      handle_next_queue_item jobs
          { job_id := BACKGROUND_DUMPING_JOB_ID, payload := payload } now
        = (modify_job_state job (kwRemove payload "cancel") now).map
            (fun j => jobs.map
              (fun x => if x.id == BACKGROUND_DUMPING_JOB_ID then j else x))) := by
  constructor
  · intro h
    simp [handle_next_queue_item, hnc, h, add_job_to_dump_files]
  · intro job h
    simp [handle_next_queue_item, hnc, h]

/-- C7 witness: a first file change schedules the dump job with the
fixed maximum delay and the message's kwargs. -/
theorem dump_job_debounce_witness :
    handle_next_queue_item []
        { job_id := BACKGROUND_DUMPING_JOB_ID,
          payload := [("files", PyVal.set ["a"])] } 5
      = .ok [{ id := BACKGROUND_DUMPING_JOB_ID,
               next_run_time := 5 + MAX_DUMPING_DELAY_IN_SECONDS,
               kwargs := [("files", PyVal.set ["a"])] }] := by
  have h := (dump_job_debounce [] [("files", PyVal.set ["a"])] 5 (by decide)).1 rfl
  exact h.trans (by decide)

/-- C8: a modification carrying a truthy `run_immediately` sets the
job's next run time to the current time and still merges the remaining
kwargs of the command into the job's kwargs. -/
theorem run_immediately_sets_next_run_and_merges (job : Job) (mods : Kwargs)
    (now : Nat)
    (h : truthy ((kwGet mods "run_immediately").getD (PyVal.bool false)) = true) :
    modify_job_state job mods now
      = (get_merged_job_kwargs job.kwargs (kwRemove mods "run_immediately")).map
          (fun m => { job with next_run_time := now, kwargs := m.1 }) := by
  cases hm : get_merged_job_kwargs job.kwargs (kwRemove mods "run_immediately") <;>
    simp [modify_job_state, h, hm, Except.map]

/-- C8 witness: `run_immediately=True` both forces the next run to now
and unions the new file set into the pending kwargs. -/
theorem run_immediately_sets_next_run_and_merges_witness :
    modify_job_state { id := "j", next_run_time := 7, kwargs := [("files", PyVal.set ["a"])] }
      [("run_immediately", PyVal.bool true), ("files", PyVal.set ["b"])] 42
      = .ok { id := "j", next_run_time := 42,
              kwargs := [("files", PyVal.set ["a", "b"])] } := by
  have h := run_immediately_sets_next_run_and_merges
    { id := "j", next_run_time := 7, kwargs := [("files", PyVal.set ["a"])] }
    [("run_immediately", PyVal.bool true), ("files", PyVal.set ["b"])] 42 (by decide)
  exact h.trans (by decide)

/-- C9: when current and incoming value of a key share a runtime type
that is none of set, list, dict or bool — strings or ints, say — the
per-key merge falls through all `isinstance` branches and stores
`None`, discarding both values. -/
theorem unsupported_type_merge_yields_none (kw : Kwargs) (k : String)
    (s1 s2 : String) (h : kwGet kw k = some (PyVal.str s1)) :
    get_merged_job_kwargs kw [(k, PyVal.str s2)] = .ok (kwSet kw k PyVal.none, [])
    ∧ merge_single_job_kwarg (PyVal.str s1) (PyVal.str s2) = .ok PyVal.none
    ∧ (∀ n1 n2 : Int,
        merge_single_job_kwarg (PyVal.int n1) (PyVal.int n2) = .ok PyVal.none) := by
  refine ⟨?_, rfl, fun n1 n2 => rfl⟩
  simp [get_merged_job_kwargs, mergeKwargsLoop, h, pyType, truthy,
    merge_single_job_kwarg]

/-- C9 witness: two strings under the same key merge to `None`. -/
theorem unsupported_type_merge_yields_none_witness :
    get_merged_job_kwargs [("k", PyVal.str "a")] [("k", PyVal.str "b")]
      = .ok ([("k", PyVal.none)], []) := by
  have h := (unsupported_type_merge_yields_none
    [("k", PyVal.str "a")] "k" "a" "b" (by decide)).1
  exact h.trans (by decide)

/-- C10: the type-mismatch guard tests truthiness of both values, so a
falsy current value of a mismatched type — an empty set against a
non-empty list — bypasses the guard and the per-key merge raises
`TypeError` instead of warning and dropping the update. -/
theorem falsy_mismatch_bypasses_guard_raises :
    truthy (PyVal.set []) = false
    ∧ pyType (PyVal.set []) ≠ pyType (PyVal.list ["x"])
    ∧ merge_single_job_kwarg (PyVal.set []) (PyVal.list ["x"])
      = .error PyError.typeError
    ∧ get_merged_job_kwargs [("k", PyVal.set [])] [("k", PyVal.list ["x"])]
      = .error PyError.typeError := by decide

end RasaX
